import Mathlib

/-!
Verification development for the `tbo-hotel-sdk` TypeScript repository.

The definitions below are a shallow embedding of the code in
`src/clients/base-client.ts` (the HTTP request executor with retry and
backoff), `src/clients/utilities-client.ts` (list-extraction helpers) and
the pre-book client (`extractPreBookInfo`), together with the data model
of `src/types/api-types.ts`.

Modelling conventions:
* TypeScript `number` fields that the code never does arithmetic on are
  modelled as `Int` (business status codes, cancellation charges, prices);
  attempt counters, HTTP statuses and millisecond delays are `Nat`.
* A JavaScript value that may be `undefined`/`null` at runtime is an
  `Option`; fields the code guards with a truthiness test are `Option`
  even when the TypeScript interface declares them required.
* The transport (axios) is an oracle `ReqConfig → TransportOutcome B`:
  for each concrete request configuration it either resolves with an
  `AxiosResponse` or rejects with an `AxiosFailure`.  Since every re-issued
  configuration differs from the previous one exactly in `retryCount`,
  the oracle can make the outcome of each attempt differ.
-/

namespace TBOSDK

/-- HTTP methods accepted by `makeRequest` (`method: 'GET' | 'POST'`). -/
inductive HttpMethod where
  | GET
  | POST
deriving DecidableEq

/-- The request payload (`data: any = {}` in `makeRequest`): a JSON object,
modelled as an association list of key/value pairs.  `Object.keys(data).length`
is its length. -/
abbrev Payload := List (String × String)

/-- The subset of the axios request configuration that `base-client.ts`
reads or writes: `method`, `url`, `data`, `params`, and the `_retryCount`
marker the response interceptor attaches. -/
structure ReqConfig where
  method : HttpMethod
  url : String
  data : Option Payload := none
  params : Option Payload := none
  retryCount : Nat := 0
deriving DecidableEq

/-- An axios success value (HTTP response delivered to the success path of
the response interceptor).  `B` is the type of the decoded JSON body. -/
structure AxiosResponse (B : Type) where
  status : Nat
  statusText : String
  data : B
deriving DecidableEq

/-- The `error.response` object of a failed axios request: present exactly
when an HTTP response was received (status outside the success range),
absent for connection-level failures. -/
structure HttpErrorResponse (B : Type) where
  status : Nat
  data : B
deriving DecidableEq

/-- An axios rejection as seen by the response interceptor: a message and
an optional HTTP error response (`none` models a network-level failure
with no response). -/
structure AxiosFailure (B : Type) where
  message : String
  response : Option (HttpErrorResponse B)
deriving DecidableEq

/-- Outcome of one transport attempt for one concrete request
configuration. -/
inductive TransportOutcome (B : Type) where
  | success (resp : AxiosResponse B)
  | failure (err : AxiosFailure B)
deriving DecidableEq

/-- `TBOError` of `api-types.ts`: `{message, code?, response?, request?}`. -/
structure TBOError (B : Type) where
  message : String
  code : Option Nat
  response : Option B
  request : Option ReqConfig
deriving DecidableEq

/-- `TBOBaseClient.createTBOError` applied to an axios error:
`code = error.response?.status`, `response = error.response?.data`,
`request = error.config` (the configuration of the failed attempt). -/
def createTBOError (e : AxiosFailure B) (cfg : ReqConfig) : TBOError B :=
  { message := e.message
  , code := e.response.map (fun r => r.status)
  , response := e.response.map (fun r => r.data)
  , request := some cfg }

/-- `TBOBaseClient.createTBOError` applied a second time, to a `TBOError`
(this happens in the `catch` block of `makeRequest`, which re-wraps the
rejection already produced by the response interceptor).  On a `TBOError`
input, `error.response` is the decoded error *body* of the original HTTP
response — for this API a JSON envelope with capitalised keys (`Status`,
…) — so `error.response?.status` and `error.response?.data` are both
`undefined`, and a `TBOError` stores the failed configuration under
`request`, not `config`, so `error.config` is `undefined` as well.  Only
the message survives. -/
def rewrapTBOError (e : TBOError B) : TBOError B :=
  { message := e.message
  , code := none
  , response := none
  , request := none }

/-- Result of the axios promise chain for one logical request: either the
response delivered through the interceptor success path, or the `TBOError`
the response interceptor rejected with. -/
inductive LoopResult (B : Type) where
  | resolved (resp : AxiosResponse B)
  | rejected (e : TBOError B)
deriving DecidableEq

/-- Observable trace of the interceptor retry loop: its final outcome, the
sequence of request configurations issued to the transport (in order), and
the sequence of backoff delays awaited (in milliseconds, in order). -/
structure LoopTrace (B : Type) where
  outcome : LoopResult B
  issued : List ReqConfig
  delays : List Nat
deriving DecidableEq

/-- The response interceptor of `TBOBaseClient.setupInterceptors`, together
with the re-entry through `this.client.request(config)`: on success the
response is passed through; on failure, if `config._retryCount < retries`
the counter is incremented, `delay(1000 * config._retryCount)` is awaited,
and the same configuration is re-issued; otherwise the promise is rejected
with `createTBOError(error)`. -/
def interceptLoop (retries : Nat) (transport : ReqConfig → TransportOutcome B)
    (cfg : ReqConfig) : LoopTrace B :=
  match transport cfg with
  | .success resp => { outcome := .resolved resp, issued := [cfg], delays := [] }
  | .failure e =>
    if _h : cfg.retryCount < retries then
      let rest := interceptLoop retries transport
        { cfg with retryCount := cfg.retryCount + 1 }
      { outcome := rest.outcome
      , issued := cfg :: rest.issued
      , delays := 1000 * (cfg.retryCount + 1) :: rest.delays }
    else
      { outcome := .rejected (createTBOError e cfg), issued := [cfg], delays := [] }
termination_by retries - cfg.retryCount
decreasing_by simp; omega

/-- The configuration object assembled at the top of
`TBOBaseClient.makeRequest`: `{method, url: '/' + endpoint, _retryCount: 0}`,
then `data` is attached for POST, and `params` for GET with a non-empty
payload. -/
def buildRequestConfig (endpoint : String) (data : Payload) (method : HttpMethod) :
    ReqConfig :=
  let base : ReqConfig :=
    { method := method, url := "/" ++ endpoint
    , data := none, params := none, retryCount := 0 }
  if method = .POST then { base with data := some data }
  else if method = .GET ∧ 0 < data.length then { base with params := some data }
  else base

/-- What `makeRequest` gives its caller: `response.data` on success, or the
`TBOError` thrown from the `catch` block. -/
inductive ReqResult (B : Type) where
  | ok (data : B)
  | err (e : TBOError B)
deriving DecidableEq

/-- Observable trace of one `makeRequest` call. -/
structure MakeRequestTrace (B : Type) where
  result : ReqResult B
  issued : List ReqConfig
  delays : List Nat
deriving DecidableEq

/-- `TBOClientConfig` of `api-types.ts`: every field optional. -/
structure TBOClientConfig where
  baseURL : Option String := none
  username : Option String := none
  password : Option String := none
  timeout : Option Nat := none
  retries : Option Nat := none
deriving DecidableEq

/-- `Required<TBOClientConfig>`: the fully resolved configuration the
constructor stores in `this.config`. -/
structure ResolvedConfig where
  baseURL : String
  username : String
  password : String
  timeout : Nat
  retries : Nat
deriving DecidableEq

/-- JavaScript `x || d` for an optional number `x`: `0` is falsy, so it is
replaced by the default. -/
def jsOrNat (x : Option Nat) (d : Nat) : Nat :=
  match x with
  | some n => if n = 0 then d else n
  | none => d

/-- JavaScript `x || d` for an optional string `x`: the empty string is
falsy, so it is replaced by the default. -/
def jsOrStr (x : Option String) (d : String) : String :=
  match x with
  | some s => if s = "" then d else s
  | none => d

/-- The configuration resolution performed by the `TBOBaseClient`
constructor: each field is `config.field || default`, with the username and
password falling back to the `TBO_USERNAME` / `TBO_PASSWORD` environment
variables before the empty string. -/
def resolveConfig (c : TBOClientConfig) (envUsername envPassword : Option String) :
    ResolvedConfig :=
  { baseURL := jsOrStr c.baseURL "http://api.tbotechnology.in/TBOHolidays_HotelAPI"
  , username := jsOrStr c.username (jsOrStr envUsername "")
  , password := jsOrStr c.password (jsOrStr envPassword "")
  , timeout := jsOrNat c.timeout 30000
  , retries := jsOrNat c.retries 3 }

/-- `TBOBaseClient.makeRequest`: build the initial configuration, run the
request through the client (whose interceptors implement the retry loop),
return `response.data` on success; on rejection, re-wrap the caught
`TBOError` with `createTBOError` in the `catch` block and throw that. -/
def makeRequest (cfg : ResolvedConfig) (endpoint : String) (data : Payload)
    (method : HttpMethod) (transport : ReqConfig → TransportOutcome B) :
    MakeRequestTrace B :=
  let t := interceptLoop cfg.retries transport (buildRequestConfig endpoint data method)
  { result :=
      match t.outcome with
      | .resolved resp => .ok resp.data
      | .rejected e => .err (rewrapTBOError e)
  , issued := t.issued
  , delays := t.delays }

/-- Proof companion for `interceptLoop`: the same computation driven by a
structurally decreasing counter `d` of retries still allowed (the loop
invariant is `d = retries - cfg.retryCount`).  `loopFuel` is not itself a
translation of the source; `interceptLoop_eq_loopFuel` proves it computes
exactly what `interceptLoop` computes. -/
def loopFuel (transport : ReqConfig → TransportOutcome B) :
    Nat → ReqConfig → LoopTrace B
  | 0, cfg =>
    match transport cfg with
    | .success resp => { outcome := .resolved resp, issued := [cfg], delays := [] }
    | .failure e =>
      { outcome := .rejected (createTBOError e cfg), issued := [cfg], delays := [] }
  | d + 1, cfg =>
    match transport cfg with
    | .success resp => { outcome := .resolved resp, issued := [cfg], delays := [] }
    | .failure _ =>
      let rest := loopFuel transport d { cfg with retryCount := cfg.retryCount + 1 }
      { outcome := rest.outcome
      , issued := cfg :: rest.issued
      , delays := 1000 * (cfg.retryCount + 1) :: rest.delays }

/-- Modelled from the spec: a transport failure the spec calls *retryable*
— an HTTP response with status ≥ 500, or a connection-level failure with
no response at all (NETWORK).  The source never tests any such predicate
(it retries every failure uniformly); the definition only delimits the
class of outcomes some claims quantify over. -/
def specRetryable (e : AxiosFailure B) : Bool :=
  match e.response with
  | some r => decide (500 ≤ r.status)
  | none => true

/-- Modelled from the spec: an HTTP 5xx failure outcome (a response was
received and its transport status is ≥ 500). -/
def spec5xxFailure (e : AxiosFailure B) : Bool :=
  match e.response with
  | some r => decide (500 ≤ r.status)
  | none => false

/-! ### Data model of `api-types.ts` and the response-reshaping helpers

The `Status` envelope and the response types used by
`utilities-client.ts` and the pre-book client.  Fields that the helper
code guards with a JavaScript truthiness test (`||`, `if (x)`) are
`Option`, even where the TypeScript interface declares them required,
because the helpers defend against their absence at runtime. -/

/-- The `Status` object of every API response: `{Code, Description}`. -/
structure APIStatus where
  Code : Int
  Description : String
deriving DecidableEq

/-- `APIResponse<T>` of `api-types.ts`. -/
structure APIResponse (T : Type) where
  Status : APIStatus
  ResponseTime : Option Int := none
  data : Option T := none
deriving DecidableEq

/-- `Country` of `api-types.ts`. -/
structure Country where
  Code : String
  Name : String
deriving DecidableEq

/-- `City` of `api-types.ts`. -/
structure City where
  Code : String
  Name : String
  CountryCode : String
deriving DecidableEq

/-- An element of `HotelDetail.HotelImages`. -/
structure HotelImage where
  ImageUrl : String
  Description : String
deriving DecidableEq

/-- `HotelDetail` of `api-types.ts` (`StarRating`, `Latitude`, `Longitude`
are TypeScript `number`s never computed with; modelled as `Int`). -/
structure HotelDetail where
  HotelCode : String
  HotelName : String
  StarRating : Int
  Address : String
  City : String
  Country : String
  Pincode : String
  ContactNumber : String
  EmailId : String
  Website : String
  Description : String
  Facilities : List String
  HotelImages : List HotelImage
  CheckInTime : String
  CheckOutTime : String
  Latitude : Int
  Longitude : Int
deriving DecidableEq

/-- `CountryListResponse`: the `CountryList` field is `Option` because
`extractCountries` defends against its runtime absence with `|| []`. -/
structure CountryListResponse where
  Status : APIStatus
  ResponseTime : Option Int := none
  CountryList : Option (List Country) := none
deriving DecidableEq

/-- `CityListResponse`: `CityList` may be absent at runtime. -/
structure CityListResponse where
  Status : APIStatus
  ResponseTime : Option Int := none
  CityList : Option (List City) := none
deriving DecidableEq

/-- `HotelDetailsResponse`: `HotelDetails` may be absent at runtime. -/
structure HotelDetailsResponse where
  Status : APIStatus
  ResponseTime : Option Int := none
  HotelDetails : Option (List HotelDetail) := none
deriving DecidableEq

/-- `UtilitiesClient.extractCountries`: `response.CountryList || []`.  A
JavaScript array is truthy even when empty, so the fallback `[]` is taken
exactly when the field is `undefined` or `null`. -/
def extractCountries (response : CountryListResponse) : List Country :=
  response.CountryList.getD []

/-- `UtilitiesClient.extractCities`: `response.CityList || []`. -/
def extractCities (response : CityListResponse) : List City :=
  response.CityList.getD []

/-- `UtilitiesClient.extractHotelDetails`: `response.HotelDetails || []`. -/
def extractHotelDetails (response : HotelDetailsResponse) : List HotelDetail :=
  response.HotelDetails.getD []

/-! ### Pre-book data model and `extractPreBookInfo` -/

/-- `CancellationPolicy` of `api-types.ts` (`CancellationCharge` is a
TypeScript `number` compared only against the literal `0`; modelled as
`Int`). -/
structure CancellationPolicy where
  FromDate : String
  ChargeType : String
  CancellationCharge : Int
deriving DecidableEq

/-- The `CancellationPolicies` object of `HotelBookingDetails`:
`{CancelPolicies, NonRefundable}`.  `CancelPolicies` is `Option` because
`extractPreBookInfo` tests it for presence before reading its length. -/
structure CancellationPolicies where
  CancelPolicies : Option (List CancellationPolicy) := none
  NonRefundable : Bool
deriving DecidableEq

/-- `Price` of `api-types.ts`. -/
structure Price where
  RoomPrice : Int
  Tax : Int
  ExtraGuestCharge : Int
  ChildCharge : Int
  OtherCharges : Int
  Discount : Int
  PublishedPrice : Int
  PublishedPriceRoundedOff : Int
  OfferedPrice : Int
  OfferedPriceRoundedOff : Int
  AgentCommission : Int
  AgentMarkUp : Int
  ServiceTax : Int
  TDS : Int
  CurrencyCode : String
deriving DecidableEq

/-- `RoomDetails` of `api-types.ts`. -/
structure RoomDetails where
  RoomIndex : Int
  RoomTypeName : String
  RatePlanName : String
  BedTypeName : String
  SmokingPreference : String
  Inclusion : List String
  RoomDescription : Option String := none
deriving DecidableEq

/-- The inline `HotelDetails` object of `HotelBookingDetails`. -/
structure BookingHotelDetails where
  Address : String
  HotelContactNo : String
  HotelEmailId : String
  StarRating : Int
deriving DecidableEq

/-- `HotelBookingDetails` of `api-types.ts`.  `Price` and
`CancellationPolicies` are `Option` because `extractPreBookInfo` guards
them with truthiness tests. -/
structure HotelBookingDetails where
  BookingCode : String
  HotelCode : String
  HotelName : String
  CheckIn : String
  CheckOut : String
  Price : Option TBOSDK.Price := none
  RoomDetails : List TBOSDK.RoomDetails := []
  CancellationPolicies : Option TBOSDK.CancellationPolicies := none
  HotelDetails : BookingHotelDetails
deriving DecidableEq

/-- `PreBookResponse`: `Status` and `HotelBookingDetails` are `Option`
because `extractPreBookInfo` guards both with truthiness tests. -/
structure PreBookResponse where
  Status : Option APIStatus := none
  ResponseTime : Option Int := none
  HotelBookingDetails : Option TBOSDK.HotelBookingDetails := none
deriving DecidableEq

/-- The `status` sub-object of the record `extractPreBookInfo` returns. -/
structure PreBookStatusInfo where
  code : Int
  description : String
deriving DecidableEq

/-- The record returned by `PreBookClient.extractPreBookInfo`. -/
structure PreBookInfo where
  status : Option PreBookStatusInfo
  bookingCode : Option String
  totalFare : Option Int
  currency : Option String
  hotelName : Option String
  checkIn : Option String
  checkOut : Option String
  isRefundable : Bool
  cancellationPolicies : Option (List CancellationPolicy)
deriving DecidableEq

/-- `PreBookClient.extractPreBookInfo`, translated statement by statement:
start from the all-`null` / `false` record; copy `Status` if present; if
`HotelBookingDetails` is present copy the booking fields, the pricing if
present, and — if `CancellationPolicies` is present — set
`cancellationPolicies` and `isRefundable = !NonRefundable`, then force
`isRefundable = true` when the first cancellation policy exists and has
`CancellationCharge === 0`. -/
def extractPreBookInfo (response : PreBookResponse) : PreBookInfo :=
  let info0 : PreBookInfo :=
    { status := none, bookingCode := none, totalFare := none, currency := none
    , hotelName := none, checkIn := none, checkOut := none
    , isRefundable := false, cancellationPolicies := none }
  let info1 :=
    match response.Status with
    | some s => { info0 with status := some { code := s.Code, description := s.Description } }
    | none => info0
  match response.HotelBookingDetails with
  | none => info1
  | some details =>
    let info2 := { info1 with
      bookingCode := some details.BookingCode
      hotelName := some details.HotelName
      checkIn := some details.CheckIn
      checkOut := some details.CheckOut }
    let info3 :=
      match details.Price with
      | some p => { info2 with totalFare := some p.OfferedPrice
                             , currency := some p.CurrencyCode }
      | none => info2
    match details.CancellationPolicies with
    | none => info3
    | some cp =>
      let info4 := { info3 with
        cancellationPolicies := cp.CancelPolicies
        isRefundable := !cp.NonRefundable }
      match cp.CancelPolicies with
      | some (firstPolicy :: _) =>
        if firstPolicy.CancellationCharge = 0 then { info4 with isRefundable := true }
        else info4
      | _ => info4

/-! ### Basic lemmas about the retry loop -/

/-- Unfolding equation for `interceptLoop`, stated with a plain
`if`-then-`else`. -/
theorem interceptLoop_eq (retries : Nat) (transport : ReqConfig → TransportOutcome B)
    (cfg : ReqConfig) :
    interceptLoop retries transport cfg =
      match transport cfg with
      | .success resp => { outcome := .resolved resp, issued := [cfg], delays := [] }
      | .failure e =>
        if cfg.retryCount < retries then
          let rest := interceptLoop retries transport
            { cfg with retryCount := cfg.retryCount + 1 }
          { outcome := rest.outcome
          , issued := cfg :: rest.issued
          , delays := 1000 * (cfg.retryCount + 1) :: rest.delays }
        else
          { outcome := .rejected (createTBOError e cfg), issued := [cfg], delays := [] } := by
  rw [interceptLoop]
  rcases transport cfg with resp | e
  · rfl
  · by_cases h : cfg.retryCount < retries <;> simp [h]

/-- `interceptLoop` computes the same trace as its structural companion
started with fuel `retries - cfg.retryCount`. -/
theorem interceptLoop_eq_loopFuel (retries : Nat)
    (transport : ReqConfig → TransportOutcome B) :
    ∀ d (cfg : ReqConfig), retries - cfg.retryCount = d →
    interceptLoop retries transport cfg = loopFuel transport d cfg := by
  intro d
  induction d with
  | zero =>
    intro cfg hd
    have hge : ¬ cfg.retryCount < retries := by omega
    rw [interceptLoop_eq, loopFuel]
    rcases transport cfg with resp | e
    · rfl
    · simp [hge]
  | succ d ih =>
    intro cfg hd
    have hlt : cfg.retryCount < retries := by omega
    rw [interceptLoop_eq, loopFuel]
    rcases transport cfg with resp | e
    · rfl
    · simp only [hlt, if_true]
      rw [ih { cfg with retryCount := cfg.retryCount + 1 } (by simp; omega)]

/-- Prepending the head attempt to a shifted issued-list gives the
issued-list of the enclosing call. -/
theorem cons_range_map_issued (cfg : ReqConfig) (k : Nat) :
    cfg :: (List.range (k + 1)).map
        (fun i => ({ cfg with retryCount := cfg.retryCount + 1 + i } : ReqConfig)) =
      (List.range (k + 2)).map
        (fun i => ({ cfg with retryCount := cfg.retryCount + i } : ReqConfig)) := by
  conv_rhs => rw [show k + 2 = (k + 1) + 1 from rfl, List.range_succ_eq_map]
  rw [List.map_cons, List.map_map]
  refine congrArg₂ List.cons rfl ?_
  refine congrArg₂ List.map ?_ rfl
  funext i
  show ({ cfg with retryCount := cfg.retryCount + 1 + i } : ReqConfig) =
    { cfg with retryCount := cfg.retryCount + (i + 1) }
  congr 1
  omega

/-- Prepending the first backoff delay to a shifted delay-list gives the
delay-list of the enclosing call. -/
theorem cons_range_map_delays (rc k : Nat) :
    1000 * (rc + 1) :: (List.range k).map (fun i => 1000 * (rc + 1 + i + 1)) =
      (List.range (k + 1)).map (fun i => 1000 * (rc + i + 1)) := by
  conv_rhs => rw [List.range_succ_eq_map]
  rw [List.map_cons, List.map_map]
  refine congrArg₂ List.cons rfl ?_
  refine congrArg₂ List.map ?_ rfl
  funext i
  show 1000 * (rc + 1 + i + 1) = 1000 * (rc + (i + 1) + 1)
  congr 1
  omega

/-- If the transport fails at the next `d + 1` attempts, `loopFuel` issues
exactly those attempts, waits the linear backoff before each retry, and
rejects with the wrapped error of the last attempt. -/
theorem loopFuel_allFail (transport : ReqConfig → TransportOutcome B)
    (err : Nat → AxiosFailure B) :
    ∀ d (cfg : ReqConfig),
    (∀ n, cfg.retryCount ≤ n → n ≤ cfg.retryCount + d →
      transport { cfg with retryCount := n } = .failure (err n)) →
    loopFuel transport d cfg =
      { outcome := .rejected (createTBOError (err (cfg.retryCount + d))
          { cfg with retryCount := cfg.retryCount + d })
      , issued := (List.range (d + 1)).map
          (fun i => { cfg with retryCount := cfg.retryCount + i })
      , delays := (List.range d).map
          (fun i => 1000 * (cfg.retryCount + i + 1)) } := by
  intro d
  induction d with
  | zero =>
    intro cfg hfail
    have h0 : transport cfg = .failure (err cfg.retryCount) :=
      hfail cfg.retryCount le_rfl (by omega)
    rw [loopFuel, h0]
    rfl
  | succ d ih =>
    intro cfg hfail
    have h0 : transport cfg = .failure (err cfg.retryCount) :=
      hfail cfg.retryCount le_rfl (by omega)
    have ihr := ih { cfg with retryCount := cfg.retryCount + 1 } (fun n h1 h2 => by
      have h1' : cfg.retryCount + 1 ≤ n := h1
      have h2' : n ≤ cfg.retryCount + 1 + d := h2
      exact hfail n (by omega) (by omega))
    rw [loopFuel, h0]
    simp only [ihr]
    congr 1
    · have h1 : cfg.retryCount + 1 + d = cfg.retryCount + (d + 1) := by omega
      rw [h1]
    · exact cons_range_map_issued cfg d
    · exact cons_range_map_delays cfg.retryCount d

/-- If the transport fails at the first `k` attempts and succeeds at the
attempt with retry counter `cfg.retryCount + k`, and `k` retries are within
the fuel, the loop resolves with that response after `k + 1` attempts. -/
theorem loopFuel_prefixSuccess (transport : ReqConfig → TransportOutcome B)
    (err : Nat → AxiosFailure B) (resp : AxiosResponse B) :
    ∀ k d (cfg : ReqConfig), k ≤ d →
    (∀ n, cfg.retryCount ≤ n → n < cfg.retryCount + k →
      transport { cfg with retryCount := n } = .failure (err n)) →
    transport { cfg with retryCount := cfg.retryCount + k } = .success resp →
    loopFuel transport d cfg =
      { outcome := .resolved resp
      , issued := (List.range (k + 1)).map
          (fun i => { cfg with retryCount := cfg.retryCount + i })
      , delays := (List.range k).map
          (fun i => 1000 * (cfg.retryCount + i + 1)) } := by
  intro k
  induction k with
  | zero =>
    intro d cfg _hkd _hfail hsucc
    have h0 : transport cfg = .success resp := hsucc
    cases d with
    | zero =>
      rw [loopFuel, h0]
      rfl
    | succ d =>
      rw [loopFuel, h0]
      rfl
  | succ k ih =>
    intro d cfg hkd hfail hsucc
    cases d with
    | zero => omega
    | succ d =>
      have h0 : transport cfg = .failure (err cfg.retryCount) :=
        hfail cfg.retryCount le_rfl (by omega)
      have ihr := ih d { cfg with retryCount := cfg.retryCount + 1 } (by omega)
        (fun n h1 h2 => by
          have h1' : cfg.retryCount + 1 ≤ n := h1
          have h2' : n < cfg.retryCount + 1 + k := h2
          exact hfail n (by omega) (by omega))
        (by
          show transport { cfg with retryCount := cfg.retryCount + 1 + k } = .success resp
          have h : cfg.retryCount + 1 + k = cfg.retryCount + (k + 1) := by omega
          rw [h]
          exact hsucc)
      rw [loopFuel, h0]
      simp only [ihr]
      congr 1
      · exact cons_range_map_issued cfg k
      · exact cons_range_map_delays cfg.retryCount k

/-- Whatever the transport does, the loop issues the same configuration
over and over with consecutive retry counters, and waits the linear
backoff `1000·(counter)` before each retry. -/
theorem loopFuel_shape (transport : ReqConfig → TransportOutcome B) :
    ∀ d (cfg : ReqConfig), ∃ k, k ≤ d ∧
      (loopFuel transport d cfg).issued =
        (List.range (k + 1)).map
          (fun i => { cfg with retryCount := cfg.retryCount + i }) ∧
      (loopFuel transport d cfg).delays =
        (List.range k).map (fun i => 1000 * (cfg.retryCount + i + 1)) := by
  intro d
  induction d with
  | zero =>
    intro cfg
    refine ⟨0, le_rfl, ?_, ?_⟩ <;>
    · rw [loopFuel]
      rcases transport cfg with r | e <;> rfl
  | succ d ih =>
    intro cfg
    cases hc : transport cfg with
    | success r =>
      refine ⟨0, by omega, ?_, ?_⟩ <;>
      · rw [loopFuel, hc]
        rfl
    | failure e =>
      obtain ⟨k, hk, hiss, hdel⟩ := ih { cfg with retryCount := cfg.retryCount + 1 }
      refine ⟨k + 1, by omega, ?_, ?_⟩
      · rw [loopFuel, hc]
        show cfg :: (loopFuel transport d
          { cfg with retryCount := cfg.retryCount + 1 }).issued = _
        rw [hiss]
        exact cons_range_map_issued cfg k
      · rw [loopFuel, hc]
        show 1000 * (cfg.retryCount + 1) :: (loopFuel transport d
          { cfg with retryCount := cfg.retryCount + 1 }).delays = _
        rw [hdel]
        exact cons_range_map_delays cfg.retryCount k

/-- The initial configuration built by `makeRequest` always carries
`_retryCount = 0`. -/
theorem buildRequestConfig_retryCount (endpoint : String) (data : Payload)
    (method : HttpMethod) :
    (buildRequestConfig endpoint data method).retryCount = 0 := by
  unfold buildRequestConfig
  split
  · rfl
  · split
    · rfl
    · rfl

/-- `makeRequest` expressed through the structural companion of the retry
loop, with fuel equal to the configured retry bound. -/
theorem makeRequest_unfold (cfgR : ResolvedConfig) (endpoint : String) (data : Payload)
    (method : HttpMethod) (transport : ReqConfig → TransportOutcome B) :
    makeRequest cfgR endpoint data method transport =
      { result :=
          match (loopFuel transport cfgR.retries
              (buildRequestConfig endpoint data method)).outcome with
          | .resolved resp => .ok resp.data
          | .rejected e => .err (rewrapTBOError e)
      , issued := (loopFuel transport cfgR.retries
          (buildRequestConfig endpoint data method)).issued
      , delays := (loopFuel transport cfgR.retries
          (buildRequestConfig endpoint data method)).delays } := by
  unfold makeRequest
  rw [interceptLoop_eq_loopFuel cfgR.retries transport cfgR.retries
    (buildRequestConfig endpoint data method)
    (by rw [buildRequestConfig_retryCount]; omega)]

/-- `interceptLoop` from a fresh configuration, when every allowed attempt
fails: all `retries + 1` attempts are issued with counters `0 … retries`,
the linear backoff is awaited before each retry, and the loop rejects with
the wrapped error of the final attempt. -/
theorem interceptLoop_allFail_zero (retries : Nat)
    (transport : ReqConfig → TransportOutcome B) (err : Nat → AxiosFailure B)
    (cfg0 : ReqConfig) (h0 : cfg0.retryCount = 0)
    (hfail : ∀ n, n ≤ retries →
      transport { cfg0 with retryCount := n } = .failure (err n)) :
    interceptLoop retries transport cfg0 =
      { outcome := .rejected (createTBOError (err retries)
          { cfg0 with retryCount := retries })
      , issued := (List.range (retries + 1)).map
          (fun i => { cfg0 with retryCount := i })
      , delays := (List.range retries).map (fun i => 1000 * (i + 1)) } := by
  rw [interceptLoop_eq_loopFuel retries transport retries cfg0 (by omega)]
  rw [loopFuel_allFail transport err retries cfg0 (fun n h1 h2 => hfail n (by omega))]
  simp only [h0, Nat.zero_add]

/-- `makeRequest` when every allowed attempt fails: `retries + 1` attempts,
linear backoff, and the caller receives the re-wrapped `TBOError` of the
final attempt. -/
theorem makeRequest_allFail (cfgR : ResolvedConfig) (endpoint : String) (data : Payload)
    (method : HttpMethod) (transport : ReqConfig → TransportOutcome B)
    (err : Nat → AxiosFailure B)
    (hfail : ∀ n, n ≤ cfgR.retries →
      transport { buildRequestConfig endpoint data method with retryCount := n } =
        .failure (err n)) :
    makeRequest cfgR endpoint data method transport =
      { result := .err (rewrapTBOError (createTBOError (err cfgR.retries)
          { buildRequestConfig endpoint data method with retryCount := cfgR.retries }))
      , issued := (List.range (cfgR.retries + 1)).map
          (fun i => { buildRequestConfig endpoint data method with retryCount := i })
      , delays := (List.range cfgR.retries).map (fun i => 1000 * (i + 1)) } := by
  unfold makeRequest
  rw [interceptLoop_allFail_zero cfgR.retries transport err _
    (buildRequestConfig_retryCount _ _ _) hfail]

/-- `interceptLoop` from a fresh configuration, when the first `k` attempts
fail and attempt `k + 1` succeeds within the bound: the loop resolves with
the successful response after `k + 1` attempts. -/
theorem interceptLoop_prefixSuccess_zero (retries : Nat)
    (transport : ReqConfig → TransportOutcome B) (err : Nat → AxiosFailure B)
    (resp : AxiosResponse B) (cfg0 : ReqConfig) (h0 : cfg0.retryCount = 0)
    (k : Nat) (hk : k ≤ retries)
    (hfail : ∀ n, n < k → transport { cfg0 with retryCount := n } = .failure (err n))
    (hsucc : transport { cfg0 with retryCount := k } = .success resp) :
    interceptLoop retries transport cfg0 =
      { outcome := .resolved resp
      , issued := (List.range (k + 1)).map (fun i => { cfg0 with retryCount := i })
      , delays := (List.range k).map (fun i => 1000 * (i + 1)) } := by
  rw [interceptLoop_eq_loopFuel retries transport retries cfg0 (by omega)]
  rw [loopFuel_prefixSuccess transport err resp k retries cfg0 hk
    (fun n h1 h2 => hfail n (by omega))
    (by rw [show cfg0.retryCount + k = k by omega]; exact hsucc)]
  simp only [h0, Nat.zero_add]

/-- `makeRequest` when the first `k` attempts fail and attempt `k + 1`
succeeds within the bound: the caller receives `response.data` of the
successful response. -/
theorem makeRequest_prefixSuccess (cfgR : ResolvedConfig) (endpoint : String)
    (data : Payload) (method : HttpMethod)
    (transport : ReqConfig → TransportOutcome B) (err : Nat → AxiosFailure B)
    (resp : AxiosResponse B) (k : Nat) (hk : k ≤ cfgR.retries)
    (hfail : ∀ n, n < k →
      transport { buildRequestConfig endpoint data method with retryCount := n } =
        .failure (err n))
    (hsucc : transport { buildRequestConfig endpoint data method with retryCount := k } =
      .success resp) :
    makeRequest cfgR endpoint data method transport =
      { result := .ok resp.data
      , issued := (List.range (k + 1)).map
          (fun i => { buildRequestConfig endpoint data method with retryCount := i })
      , delays := (List.range k).map (fun i => 1000 * (i + 1)) } := by
  unfold makeRequest
  rw [interceptLoop_prefixSuccess_zero cfgR.retries transport err resp _
    (buildRequestConfig_retryCount _ _ _) k hk hfail hsucc]

/-- `interceptLoop` from a fresh configuration, for an arbitrary transport:
some number `k ≤ retries` of retries happens; the issued configurations
carry counters `0 … k`, and the awaited delays are `1000·1, …, 1000·k`. -/
theorem interceptLoop_shape_zero (retries : Nat)
    (transport : ReqConfig → TransportOutcome B) (cfg0 : ReqConfig)
    (h0 : cfg0.retryCount = 0) :
    ∃ k, k ≤ retries ∧
      (interceptLoop retries transport cfg0).issued =
        (List.range (k + 1)).map (fun i => { cfg0 with retryCount := i }) ∧
      (interceptLoop retries transport cfg0).delays =
        (List.range k).map (fun i => 1000 * (i + 1)) := by
  obtain ⟨k, hk, hiss, hdel⟩ := loopFuel_shape transport retries cfg0
  refine ⟨k, hk, ?_, ?_⟩
  · rw [interceptLoop_eq_loopFuel retries transport retries cfg0 (by omega), hiss]
    simp only [h0, Nat.zero_add]
  · rw [interceptLoop_eq_loopFuel retries transport retries cfg0 (by omega), hdel]
    simp only [h0, Nat.zero_add]

/-- A fresh configuration is unchanged by resetting its counter to `0`. -/
theorem reqConfig_update_zero (c : ReqConfig) (h : c.retryCount = 0) :
    ({ c with retryCount := 0 } : ReqConfig) = c := by
  cases c
  simp_all

/-! ### Claims about the request executor -/

/-- C4: a request that fails with a retryable outcome on every attempt
through attempt `maxRetries + 1` is resolved after exactly
`maxRetries + 1` attempts (never more), and the error surfaced to the
caller is built from the final attempt's failure: the response interceptor
rejects with `createTBOError` of that failure (carrying its message, HTTP
status and body), and `makeRequest` throws its re-wrap. -/
theorem C4_exhausted_retries_count_and_final_error (B : Type) (cfgR : ResolvedConfig)
    (endpoint : String) (data : Payload) (method : HttpMethod)
    (transport : ReqConfig → TransportOutcome B) (err : Nat → AxiosFailure B)
    (_hretryable : ∀ n, n ≤ cfgR.retries → specRetryable (err n) = true)
    (hfail : ∀ n, n ≤ cfgR.retries →
      transport { buildRequestConfig endpoint data method with retryCount := n } =
        .failure (err n)) :
    (makeRequest cfgR endpoint data method transport).issued.length = cfgR.retries + 1 ∧
    (interceptLoop cfgR.retries transport (buildRequestConfig endpoint data method)).outcome =
      .rejected (createTBOError (err cfgR.retries)
        { buildRequestConfig endpoint data method with retryCount := cfgR.retries }) ∧
    (makeRequest cfgR endpoint data method transport).result =
      .err (rewrapTBOError (createTBOError (err cfgR.retries)
        { buildRequestConfig endpoint data method with retryCount := cfgR.retries })) := by
  have hm := makeRequest_allFail cfgR endpoint data method transport err hfail
  have hl := interceptLoop_allFail_zero cfgR.retries transport err
    (buildRequestConfig endpoint data method) (buildRequestConfig_retryCount _ _ _) hfail
  refine ⟨?_, ?_, ?_⟩
  · rw [hm]
    simp
  · rw [hl]
  · rw [hm]

/-- Witness for C4: default configuration (`retries = 3`), transport
failing with HTTP 500 on every attempt — 4 attempts, error of the final
attempt surfaced. -/
theorem C4_witness :
    (makeRequest (resolveConfig {} none none) "search" [] .POST
        (fun _ => .failure { message := "Request failed with status code 500"
                           , response := some { status := 500, data := () } })).issued.length
      = 4 ∧
    (makeRequest (resolveConfig {} none none) "search" [] .POST
        (fun _ => .failure { message := "Request failed with status code 500"
                           , response := some { status := 500, data := () } })).result =
      .err (rewrapTBOError (createTBOError
        { message := "Request failed with status code 500"
        , response := some { status := 500, data := () } }
        { buildRequestConfig "search" [] .POST with retryCount := 3 })) := by
  have h := C4_exhausted_retries_count_and_final_error Unit (resolveConfig {} none none)
    "search" [] .POST
    (fun _ => .failure { message := "Request failed with status code 500"
                       , response := some { status := 500, data := () } })
    (fun _ => { message := "Request failed with status code 500"
              , response := some { status := 500, data := () } })
    (fun _ _ => rfl) (fun _ _ => rfl)
  exact ⟨h.1, h.2.2⟩

/-- C5: a request whose transport fails with a 5xx outcome on a prefix of
attempts and succeeds at an attempt within the bound resolves with
success — the decoded body intact — and not with a terminal failure. -/
theorem C5_prefix_5xx_then_success (B : Type) (cfgR : ResolvedConfig) (endpoint : String)
    (data : Payload) (method : HttpMethod) (transport : ReqConfig → TransportOutcome B)
    (err : Nat → AxiosFailure B) (resp : AxiosResponse B) (k : Nat)
    (hk : k ≤ cfgR.retries)
    (_h5xx : ∀ n, n < k → spec5xxFailure (err n) = true)
    (hfail : ∀ n, n < k →
      transport { buildRequestConfig endpoint data method with retryCount := n } =
        .failure (err n))
    (hsucc : transport { buildRequestConfig endpoint data method with retryCount := k } =
      .success resp) :
    (makeRequest cfgR endpoint data method transport).result = .ok resp.data ∧
    (makeRequest cfgR endpoint data method transport).issued.length = k + 1 := by
  have hm := makeRequest_prefixSuccess cfgR endpoint data method transport err resp k hk
    hfail hsucc
  refine ⟨?_, ?_⟩
  · rw [hm]
  · rw [hm]
    simp

/-- Witness for C5: the spec scenario — country-list endpoint, no payload,
`maxRetries = 3`, transport returning 500, 500, then 200 with a body; the
executor succeeds on attempt 3 with the body intact. -/
theorem C5_witness :
    (makeRequest (resolveConfig {} none none) "CountryList" [] .GET
        (fun c =>
          if c.retryCount < 2 then
            TransportOutcome.failure
              { message := "Request failed with status code 500"
              , response := some
                  { status := 500
                  , data := ({ Status := { Code := 500, Description := "Server Error" } }
                      : CountryListResponse) } }
          else
            TransportOutcome.success
              { status := 200
              , statusText := "OK"
              , data :=
                  { Status := { Code := 200, Description := "Successful" }
                  , CountryList :=
                      some [{ Code := "AE", Name := "United Arab Emirates" }] } })).result
      = ReqResult.ok
          { Status := { Code := 200, Description := "Successful" }
          , CountryList := some [{ Code := "AE", Name := "United Arab Emirates" }] } ∧
    (makeRequest (resolveConfig {} none none) "CountryList" [] .GET
        (fun c =>
          if c.retryCount < 2 then
            TransportOutcome.failure
              { message := "Request failed with status code 500"
              , response := some
                  { status := 500
                  , data := ({ Status := { Code := 500, Description := "Server Error" } }
                      : CountryListResponse) } }
          else
            TransportOutcome.success
              { status := 200
              , statusText := "OK"
              , data :=
                  { Status := { Code := 200, Description := "Successful" }
                  , CountryList :=
                      some [{ Code := "AE", Name := "United Arab Emirates" }] } })).issued.length
      = 3 := by
  have h := C5_prefix_5xx_then_success CountryListResponse (resolveConfig {} none none)
    "CountryList" [] .GET
    (fun c =>
      if c.retryCount < 2 then
        TransportOutcome.failure
          { message := "Request failed with status code 500"
          , response := some
              { status := 500
              , data := ({ Status := { Code := 500, Description := "Server Error" } }
                  : CountryListResponse) } }
      else
        TransportOutcome.success
          { status := 200
          , statusText := "OK"
          , data :=
              { Status := { Code := 200, Description := "Successful" }
              , CountryList := some [{ Code := "AE", Name := "United Arab Emirates" }] } })
    (fun _ =>
      { message := "Request failed with status code 500"
      , response := some
          { status := 500
          , data := { Status := { Code := 500, Description := "Server Error" } } } })
    { status := 200
    , statusText := "OK"
    , data :=
        { Status := { Code := 200, Description := "Successful" }
        , CountryList := some [{ Code := "AE", Name := "United Arab Emirates" }] } }
    2 (by decide) (fun _ _ => rfl)
    (fun n hn => by
      show (if n < 2 then _ else _) = _
      simp [hn])
    (by
      show (if 2 < 2 then _ else _) = _
      simp)
  exact ⟨h.1, h.2⟩

/-- C6: for every retry sequence, the backoff delay inserted before
attempt `N` (`N > 1`) is `1000 · (N − 1)` milliseconds, and every issued
configuration is the initial one with only the attempt counter changed
(counter `i` for the `i + 1`-st attempt — incremented before the wait,
since the delay before the attempt with counter `i + 1` is
`1000 · (i + 1)`). -/
theorem C6_linear_backoff_and_identical_reissue (B : Type) (cfgR : ResolvedConfig)
    (endpoint : String) (data : Payload) (method : HttpMethod)
    (transport : ReqConfig → TransportOutcome B) :
    (makeRequest cfgR endpoint data method transport).delays =
      (List.range ((makeRequest cfgR endpoint data method transport).issued.length - 1)).map
        (fun i => 1000 * (i + 1)) ∧
    (makeRequest cfgR endpoint data method transport).issued =
      (List.range ((makeRequest cfgR endpoint data method transport).issued.length)).map
        (fun i => { buildRequestConfig endpoint data method with retryCount := i }) := by
  obtain ⟨k, hk, hiss, hdel⟩ := interceptLoop_shape_zero cfgR.retries transport
    (buildRequestConfig endpoint data method) (buildRequestConfig_retryCount _ _ _)
  have hiss' : (makeRequest cfgR endpoint data method transport).issued =
      (List.range (k + 1)).map
        (fun i => { buildRequestConfig endpoint data method with retryCount := i }) := hiss
  have hdel' : (makeRequest cfgR endpoint data method transport).delays =
      (List.range k).map (fun i => 1000 * (i + 1)) := hdel
  have hlen : (makeRequest cfgR endpoint data method transport).issued.length = k + 1 := by
    rw [hiss']
    simp
  rw [hlen, hdel', hiss']
  simp

/-- C7: a transport-successful response is handed to the caller exactly as
received: `makeRequest` returns `response.data` unchanged, so the
envelope's `Status.Code` and `Status.Description` are the raw values, and
a non-200 business code inside the body (the quantification includes any
`resp.data.Status.Code`) is still returned as success, never turned into
an executor-level error. -/
theorem C7_success_envelope_passthrough (T : Type) (cfgR : ResolvedConfig)
    (endpoint : String) (data : Payload) (method : HttpMethod)
    (transport : ReqConfig → TransportOutcome (APIResponse T))
    (resp : AxiosResponse (APIResponse T))
    (hsucc : transport (buildRequestConfig endpoint data method) = .success resp) :
    (makeRequest cfgR endpoint data method transport).result = .ok resp.data ∧
    ∀ env : APIResponse T,
      (makeRequest cfgR endpoint data method transport).result = .ok env →
      env.Status.Code = resp.data.Status.Code ∧
      env.Status.Description = resp.data.Status.Description := by
  have hsucc0 : transport { buildRequestConfig endpoint data method with retryCount := 0 } =
      .success resp := by
    rw [reqConfig_update_zero _ (buildRequestConfig_retryCount _ _ _)]
    exact hsucc
  have hm := makeRequest_prefixSuccess cfgR endpoint data method transport
    (fun _ => { message := "", response := none }) resp 0 (Nat.zero_le _)
    (fun n hn => absurd hn (Nat.not_lt_zero n)) hsucc0
  constructor
  · rw [hm]
  · intro env henv
    rw [hm] at henv
    have h2 : ReqResult.ok (B := APIResponse T) resp.data = .ok env := henv
    cases h2
    exact ⟨rfl, rfl⟩

/-- Witness for C7: the body's business status is 500, yet the call
resolves as success with the envelope unchanged. -/
theorem C7_witness :
    (makeRequest (resolveConfig {} none none) "PreBook" [("BookingCode", "abc")] .POST
        (fun _ =>
          TransportOutcome.success
            { status := 200
            , statusText := "OK"
            , data := ({ Status := { Code := 500, Description := "Business-level error" } }
                : APIResponse Unit) })).result
      = ReqResult.ok { Status := { Code := 500, Description := "Business-level error" } } :=
  (C7_success_envelope_passthrough Unit (resolveConfig {} none none) "PreBook"
    [("BookingCode", "abc")] .POST _ _ rfl).1

/-- C8: the payload is routed by method — for POST it becomes the request
body (also when empty), for GET a non-empty payload becomes query
parameters and an empty payload adds neither body nor parameters; and the
configuration `makeRequest` issues first is exactly the one built this
way. -/
theorem C8_payload_routing_by_method (endpoint : String) (data : Payload)
    (hne : 0 < data.length) :
    ((buildRequestConfig endpoint data .POST).data = some data ∧
      (buildRequestConfig endpoint data .POST).params = none) ∧
    ((buildRequestConfig endpoint [] .POST).data = some [] ∧
      (buildRequestConfig endpoint [] .POST).params = none) ∧
    ((buildRequestConfig endpoint data .GET).params = some data ∧
      (buildRequestConfig endpoint data .GET).data = none) ∧
    ((buildRequestConfig endpoint [] .GET).params = none ∧
      (buildRequestConfig endpoint [] .GET).data = none) ∧
    ∀ (B : Type) (cfgR : ResolvedConfig) (method : HttpMethod)
      (transport : ReqConfig → TransportOutcome B),
      (makeRequest cfgR endpoint data method transport).issued.head? =
        some (buildRequestConfig endpoint data method) := by
  refine ⟨⟨rfl, rfl⟩, ⟨rfl, rfl⟩, ⟨?_, ?_⟩, ⟨rfl, rfl⟩, ?_⟩
  · simp [buildRequestConfig, hne]
  · simp [buildRequestConfig, hne]
  · intro B cfgR method transport
    obtain ⟨k, hk, hiss, hdel⟩ := interceptLoop_shape_zero cfgR.retries transport
      (buildRequestConfig endpoint data method) (buildRequestConfig_retryCount _ _ _)
    have hiss' : (makeRequest cfgR endpoint data method transport).issued =
        (List.range (k + 1)).map
          (fun i => { buildRequestConfig endpoint data method with retryCount := i }) := hiss
    rw [hiss', List.range_succ_eq_map]
    simp [reqConfig_update_zero _ (buildRequestConfig_retryCount endpoint data method)]

/-- Witness for C8 at concrete inputs. -/
theorem C8_witness :
    (buildRequestConfig "CityList" [("CountryCode", "AE")] .POST).data =
      some [("CountryCode", "AE")] ∧
    (buildRequestConfig "CityList" [("CountryCode", "AE")] .GET).params =
      some [("CountryCode", "AE")] ∧
    (buildRequestConfig "CityList" [] .GET).params = none := by
  have h := C8_payload_routing_by_method "CityList" [("CountryCode", "AE")] (by decide)
  exact ⟨h.1.1, h.2.2.1.1, h.2.2.2.1.1⟩

/-- C1 counterexample: with the default configuration (`retries = 3`) and
a transport failing with HTTP 401 on every attempt, `makeRequest` issues 4
attempts — a 401 failure IS retried, so "an AUTH classified error after
exactly one attempt: no retry is ever issued for a 401 failure" is false
on this code. -/
theorem C1_counterexample_401_is_retried :
    (makeRequest (resolveConfig {} none none) "CountryList" [] .GET
        (fun _ => .failure { message := "Request failed with status code 401"
                           , response := some { status := 401, data := () } })).issued.length
      = 4 ∧
    ¬ (makeRequest (resolveConfig {} none none) "CountryList" [] .GET
        (fun _ => .failure { message := "Request failed with status code 401"
                           , response := some { status := 401, data := () } })).issued.length
      = 1 := by
  have h := makeRequest_allFail (resolveConfig {} none none) "CountryList" [] .GET
    (fun _ => .failure { message := "Request failed with status code 401"
                       , response := some { status := 401, data := () } })
    (fun _ => { message := "Request failed with status code 401"
              , response := some { status := 401, data := () } })
    (fun _ _ => rfl)
  refine ⟨?_, ?_⟩
  · rw [h]
    rfl
  · rw [h]
    decide

/-- C1 (amended): the code classifies nothing and exempts nothing from
retry — a request failing with HTTP 401 on every attempt is retried like
any other failure: `makeRequest` issues `retries + 1` attempts, the
response interceptor's final rejection is the wrapped final-attempt error
whose `code` is 401, and the caller receives its re-wrap. -/
theorem C1_amended_401_retried_like_any_failure (B : Type) (cfgR : ResolvedConfig)
    (endpoint : String) (data : Payload) (method : HttpMethod)
    (transport : ReqConfig → TransportOutcome B) (e : AxiosFailure B)
    (r : HttpErrorResponse B) (hr : e.response = some r) (hst : r.status = 401)
    (hfail : ∀ c, transport c = .failure e) :
    (makeRequest cfgR endpoint data method transport).issued.length = cfgR.retries + 1 ∧
    (interceptLoop cfgR.retries transport (buildRequestConfig endpoint data method)).outcome =
      .rejected (createTBOError e
        { buildRequestConfig endpoint data method with retryCount := cfgR.retries }) ∧
    (createTBOError e
        { buildRequestConfig endpoint data method with retryCount := cfgR.retries }).code =
      some 401 ∧
    (makeRequest cfgR endpoint data method transport).result =
      .err (rewrapTBOError (createTBOError e
        { buildRequestConfig endpoint data method with retryCount := cfgR.retries })) := by
  have hm := makeRequest_allFail cfgR endpoint data method transport (fun _ => e)
    (fun _ _ => hfail _)
  have hl := interceptLoop_allFail_zero cfgR.retries transport (fun _ => e)
    (buildRequestConfig endpoint data method) (buildRequestConfig_retryCount _ _ _)
    (fun _ _ => hfail _)
  refine ⟨?_, ?_, ?_, ?_⟩
  · rw [hm]
    simp
  · rw [hl]
  · simp [createTBOError, hr, hst]
  · rw [hm]

/-- Witness for the amended C1 at a concrete input. -/
theorem C1_witness :
    (makeRequest (resolveConfig {} none none) "CountryList" [] .GET
        (fun _ => .failure { message := "Request failed with status code 401"
                           , response := some { status := 401, data := () } })).issued.length
      = 4 ∧
    (createTBOError
        { message := "Request failed with status code 401"
        , response := some { status := 401, data := (() : Unit) } }
        { buildRequestConfig "CountryList" [] .GET with retryCount := 3 }).code = some 401 := by
  have h := C1_amended_401_retried_like_any_failure Unit (resolveConfig {} none none)
    "CountryList" [] .GET
    (fun _ => .failure { message := "Request failed with status code 401"
                       , response := some { status := 401, data := () } })
    { message := "Request failed with status code 401"
    , response := some { status := 401, data := () } }
    { status := 401, data := () } rfl rfl (fun _ => rfl)
  exact ⟨h.1, h.2.2.1⟩

/-- C2 counterexample: with the default configuration (`retries = 3`) and
a transport failing with HTTP 404 on every attempt, `makeRequest` issues 4
attempts — the first-attempt 404 triggers a retry, so "returns a
CLIENT_VALIDATION classified error without performing any retry" is false
on this code. -/
theorem C2_counterexample_404_is_retried :
    (makeRequest (resolveConfig {} none none) "Hoteldetails" [] .POST
        (fun _ => .failure { message := "Request failed with status code 404"
                           , response := some { status := 404, data := () } })).issued.length
      = 4 ∧
    ¬ (makeRequest (resolveConfig {} none none) "Hoteldetails" [] .POST
        (fun _ => .failure { message := "Request failed with status code 404"
                           , response := some { status := 404, data := () } })).issued.length
      = 1 := by
  have h := makeRequest_allFail (resolveConfig {} none none) "Hoteldetails" [] .POST
    (fun _ => .failure { message := "Request failed with status code 404"
                       , response := some { status := 404, data := () } })
    (fun _ => { message := "Request failed with status code 404"
              , response := some { status := 404, data := () } })
    (fun _ _ => rfl)
  refine ⟨?_, ?_⟩
  · rw [h]
    rfl
  · rw [h]
    decide

/-- C2 (amended): a 4xx status other than 401 (404, 422, …) is retried
like any other failure: with such a failure on every attempt,
`makeRequest` issues `retries + 1` attempts, the interceptor's final
rejection carries that status as `code`, and the caller receives its
re-wrap; no CLIENT_VALIDATION classification exists. -/
theorem C2_amended_4xx_retried_like_any_failure (B : Type) (cfgR : ResolvedConfig)
    (endpoint : String) (data : Payload) (method : HttpMethod)
    (transport : ReqConfig → TransportOutcome B) (e : AxiosFailure B)
    (r : HttpErrorResponse B) (s : Nat) (hr : e.response = some r) (hst : r.status = s)
    (_h400 : 400 ≤ s) (_h499 : s < 500) (_hne : s ≠ 401)
    (hfail : ∀ c, transport c = .failure e) :
    (makeRequest cfgR endpoint data method transport).issued.length = cfgR.retries + 1 ∧
    (interceptLoop cfgR.retries transport (buildRequestConfig endpoint data method)).outcome =
      .rejected (createTBOError e
        { buildRequestConfig endpoint data method with retryCount := cfgR.retries }) ∧
    (createTBOError e
        { buildRequestConfig endpoint data method with retryCount := cfgR.retries }).code =
      some s ∧
    (makeRequest cfgR endpoint data method transport).result =
      .err (rewrapTBOError (createTBOError e
        { buildRequestConfig endpoint data method with retryCount := cfgR.retries })) := by
  have hm := makeRequest_allFail cfgR endpoint data method transport (fun _ => e)
    (fun _ _ => hfail _)
  have hl := interceptLoop_allFail_zero cfgR.retries transport (fun _ => e)
    (buildRequestConfig endpoint data method) (buildRequestConfig_retryCount _ _ _)
    (fun _ _ => hfail _)
  refine ⟨?_, ?_, ?_, ?_⟩
  · rw [hm]
    simp
  · rw [hl]
  · simp [createTBOError, hr, hst]
  · rw [hm]

/-- Witness for the amended C2 at a concrete input (HTTP 404). -/
theorem C2_witness :
    (makeRequest (resolveConfig {} none none) "Hoteldetails" [] .POST
        (fun _ => .failure { message := "Request failed with status code 404"
                           , response := some { status := 404, data := () } })).issued.length
      = 4 ∧
    (createTBOError
        { message := "Request failed with status code 404"
        , response := some { status := 404, data := (() : Unit) } }
        { buildRequestConfig "Hoteldetails" [] .POST with retryCount := 3 }).code = some 404 := by
  have h := C2_amended_4xx_retried_like_any_failure Unit (resolveConfig {} none none)
    "Hoteldetails" [] .POST
    (fun _ => .failure { message := "Request failed with status code 404"
                       , response := some { status := 404, data := () } })
    { message := "Request failed with status code 404"
    , response := some { status := 404, data := () } }
    { status := 404, data := () } 404 rfl rfl (by decide) (by decide) (by decide)
    (fun _ => rfl)
  exact ⟨h.1, h.2.2.1⟩

/-- C3 counterexample: constructing with `retries = 0` does not yield one
attempt — `config.retries || 3` treats the falsy `0` as absent, the
resolved retry bound is 3, and a transport failing with HTTP 500 on every
attempt is hit 4 times, so "a SERVER failure after exactly one attempt,
with no retry performed" is false on this code. -/
theorem C3_counterexample_retries_zero_not_honoured :
    (resolveConfig { retries := some 0 } none none).retries = 3 ∧
    (makeRequest (resolveConfig { retries := some 0 } none none) "search" [] .POST
        (fun _ => .failure { message := "Request failed with status code 500"
                           , response := some { status := 500, data := () } })).issued.length
      = 4 ∧
    ¬ (makeRequest (resolveConfig { retries := some 0 } none none) "search" [] .POST
        (fun _ => .failure { message := "Request failed with status code 500"
                           , response := some { status := 500, data := () } })).issued.length
      = 1 := by
  have h := makeRequest_allFail (resolveConfig { retries := some 0 } none none) "search" []
    .POST
    (fun _ => .failure { message := "Request failed with status code 500"
                       , response := some { status := 500, data := () } })
    (fun _ => { message := "Request failed with status code 500"
              , response := some { status := 500, data := () } })
    (fun _ _ => rfl)
  refine ⟨rfl, ?_, ?_⟩
  · rw [h]
    rfl
  · rw [h]
    decide

/-- C3 (amended): with `retries = 0` in the constructor configuration,
`config.retries || 3` replaces the falsy `0` by the default `3`, so the
500 on the first attempt IS retried: with a transport failing with HTTP
500 on every attempt, `makeRequest` issues 4 attempts and the caller
receives the re-wrap of the final attempt's wrapped error, whose
interceptor-level `code` is 500. -/
theorem C3_amended_retries_zero_defaults_to_three (c : TBOClientConfig)
    (envUsername envPassword : Option String) (hc : c.retries = some 0)
    (B : Type) (endpoint : String) (data : Payload) (method : HttpMethod)
    (transport : ReqConfig → TransportOutcome B) (e : AxiosFailure B)
    (r : HttpErrorResponse B) (hr : e.response = some r) (hst : r.status = 500)
    (hfail : ∀ cf, transport cf = .failure e) :
    (resolveConfig c envUsername envPassword).retries = 3 ∧
    (makeRequest (resolveConfig c envUsername envPassword) endpoint data method
        transport).issued.length = 4 ∧
    (createTBOError e
        { buildRequestConfig endpoint data method with retryCount := 3 }).code = some 500 ∧
    (makeRequest (resolveConfig c envUsername envPassword) endpoint data method
        transport).result =
      .err (rewrapTBOError (createTBOError e
        { buildRequestConfig endpoint data method with retryCount := 3 })) := by
  have hret : (resolveConfig c envUsername envPassword).retries = 3 := by
    simp [resolveConfig, jsOrNat, hc]
  have hm := makeRequest_allFail (resolveConfig c envUsername envPassword) endpoint data
    method transport (fun _ => e) (fun _ _ => hfail _)
  rw [hret] at hm
  refine ⟨hret, ?_, ?_, ?_⟩
  · rw [hm]
    simp
  · simp [createTBOError, hr, hst]
  · rw [hm]

/-- Witness for the amended C3 at a concrete input. -/
theorem C3_witness :
    (resolveConfig { retries := some 0 } none none).retries = 3 ∧
    (makeRequest (resolveConfig { retries := some 0 } none none) "search" [] .POST
        (fun _ => .failure { message := "Request failed with status code 500"
                           , response := some { status := 500, data := () } })).result =
      .err (rewrapTBOError (createTBOError
        { message := "Request failed with status code 500"
        , response := some { status := 500, data := (() : Unit) } }
        { buildRequestConfig "search" [] .POST with retryCount := 3 })) := by
  have h := C3_amended_retries_zero_defaults_to_three { retries := some 0 } none none rfl
    Unit "search" [] .POST
    (fun _ => .failure { message := "Request failed with status code 500"
                       , response := some { status := 500, data := () } })
    { message := "Request failed with status code 500"
    , response := some { status := 500, data := () } }
    { status := 500, data := () } rfl rfl (fun _ => rfl)
  exact ⟨h.1, h.2.2.2⟩

/-! ### Claims about the response-reshaping helpers -/

/-- C9: the extraction helpers are total — they return the corresponding
list field when present, and `[]` when the field is absent (`undefined`
or `null`); being Lean functions into `List`, they can neither throw nor
return an undefined value. -/
theorem C9_extract_helpers_total
    (rc : CountryListResponse) (rci : CityListResponse) (rh : HotelDetailsResponse) :
    (∀ l, rc.CountryList = some l → extractCountries rc = l) ∧
    (rc.CountryList = none → extractCountries rc = []) ∧
    (∀ l, rci.CityList = some l → extractCities rci = l) ∧
    (rci.CityList = none → extractCities rci = []) ∧
    (∀ l, rh.HotelDetails = some l → extractHotelDetails rh = l) ∧
    (rh.HotelDetails = none → extractHotelDetails rh = []) :=
  ⟨fun _ h => by simp [extractCountries, h]
  , fun h => by simp [extractCountries, h]
  , fun _ h => by simp [extractCities, h]
  , fun h => by simp [extractCities, h]
  , fun _ h => by simp [extractHotelDetails, h]
  , fun h => by simp [extractHotelDetails, h]⟩

/-- Witness for C9 at concrete inputs. -/
theorem C9_witness :
    extractCountries
        { Status := { Code := 200, Description := "Successful" }
        , CountryList := some [{ Code := "AE", Name := "United Arab Emirates" }] }
      = [{ Code := "AE", Name := "United Arab Emirates" }] ∧
    extractCountries { Status := { Code := 200, Description := "Successful" } } = [] ∧
    extractCities { Status := { Code := 200, Description := "Successful" } } = [] ∧
    extractHotelDetails { Status := { Code := 200, Description := "Successful" } } = [] := by
  have ha := C9_extract_helpers_total
    { Status := { Code := 200, Description := "Successful" }
    , CountryList := some [{ Code := "AE", Name := "United Arab Emirates" }] }
    { Status := { Code := 200, Description := "Successful" } }
    { Status := { Code := 200, Description := "Successful" } }
  have hb := C9_extract_helpers_total
    { Status := { Code := 200, Description := "Successful" } }
    { Status := { Code := 200, Description := "Successful" } }
    { Status := { Code := 200, Description := "Successful" } }
  exact ⟨ha.1 _ rfl, hb.2.1 rfl, hb.2.2.2.1 rfl, hb.2.2.2.2.2 rfl⟩

/-- C10: `extractPreBookInfo` reports `isRefundable = true` whenever the
first cancellation policy has `CancellationCharge = 0` — even when
`NonRefundable` is `true` — and reports `false` when the response carries
no `CancellationPolicies` object at all (including when
`HotelBookingDetails` itself is absent). -/
theorem C10_isRefundable_first_policy_zero_charge :
    (∀ (r : PreBookResponse) (details : HotelBookingDetails)
        (cp : CancellationPolicies) (p : CancellationPolicy)
        (ps : List CancellationPolicy),
      r.HotelBookingDetails = some details →
      details.CancellationPolicies = some cp →
      cp.CancelPolicies = some (p :: ps) →
      p.CancellationCharge = 0 →
      (extractPreBookInfo r).isRefundable = true) ∧
    (∀ r : PreBookResponse, r.HotelBookingDetails = none →
      (extractPreBookInfo r).isRefundable = false) ∧
    (∀ (r : PreBookResponse) (details : HotelBookingDetails),
      r.HotelBookingDetails = some details →
      details.CancellationPolicies = none →
      (extractPreBookInfo r).isRefundable = false) := by
  refine ⟨?_, ?_, ?_⟩
  · intro r details cp p ps h1 h2 h3 h4
    cases hs : r.Status <;> cases hp : details.Price <;>
      simp [extractPreBookInfo, hs, hp, h1, h2, h3, h4]
  · intro r h1
    cases hs : r.Status <;> simp [extractPreBookInfo, hs, h1]
  · intro r details h1 h2
    cases hs : r.Status <;> cases hp : details.Price <;>
      simp [extractPreBookInfo, hs, hp, h1, h2]

/-- Witness for C10: a response whose `NonRefundable` flag is `true` but
whose first cancellation policy has zero charge is reported refundable;
one with no `CancellationPolicies` object is not. -/
theorem C10_witness :
    (extractPreBookInfo
        { Status := some { Code := 200, Description := "Successful" }
        , HotelBookingDetails := some
            { BookingCode := "BK1"
            , HotelCode := "1402689"
            , HotelName := "Test Hotel"
            , CheckIn := "2025-07-27"
            , CheckOut := "2025-07-28"
            , Price := some
                { RoomPrice := 100, Tax := 10, ExtraGuestCharge := 0, ChildCharge := 0
                , OtherCharges := 0, Discount := 0, PublishedPrice := 110
                , PublishedPriceRoundedOff := 110, OfferedPrice := 105
                , OfferedPriceRoundedOff := 105, AgentCommission := 0, AgentMarkUp := 0
                , ServiceTax := 0, TDS := 0, CurrencyCode := "USD" }
            , RoomDetails := []
            , CancellationPolicies := some
                { CancelPolicies := some
                    [{ FromDate := "2025-07-20", ChargeType := "Fixed"
                     , CancellationCharge := 0 }]
                , NonRefundable := true }
            , HotelDetails :=
                { Address := "Street 1", HotelContactNo := "0", HotelEmailId := "h"
                , StarRating := 4 } } }).isRefundable = true ∧
    (extractPreBookInfo
        { Status := some { Code := 200, Description := "Successful" }
        , HotelBookingDetails := some
            { BookingCode := "BK2"
            , HotelCode := "1405349"
            , HotelName := "Other Hotel"
            , CheckIn := "2025-07-27"
            , CheckOut := "2025-07-28"
            , HotelDetails :=
                { Address := "Street 2", HotelContactNo := "0", HotelEmailId := "h"
                , StarRating := 3 } } }).isRefundable = false := by
  have h := C10_isRefundable_first_policy_zero_charge
  exact ⟨h.1 _ _ _ _ _ rfl rfl rfl rfl, h.2.2 _ _ rfl rfl⟩

end TBOSDK
